import Mathlib

/-!
Shallow embedding of the porter preview-environment orchestration core:
the `FinalizeDeploymentHandler.ServeHTTP` handler
(`api/server/handlers/environment/finalize_deployment.go`), and the
provisioning handlers `HandleProvisionAWSECRInfra` /
`HandleGetProvisioningLogs` (`internal/api`).

External collaborators (the backing store, the GitHub client, the
Kubernetes agent) are modelled as oracles: a record of the results each
external call would return, threaded through the handler's control flow
exactly as in the Go source.  Machine integers in the source (uint, int64)
only flow through opaquely here, so they are modelled as `Nat`/`Int`
without overflow arithmetic.
-/

namespace Porter

/-- Deployment status enum (`types.DeploymentStatus`).  The finalize
handler only writes `DeploymentStatusCreated`; the remaining constructors
are the states named by the lifecycle state machine. -/
inductive DeploymentStatus where
  | creating
  | created
  | failed
  | timedOut
  | closing
  | closed
  deriving DecidableEq, Repr

/-- `models.Environment`: the fields read by the finalize handler. -/
structure Environment where
  id : Nat
  projectID : Nat
  clusterID : Nat
  installationID : Nat
  gitRepoOwner : String
  gitRepoName : String
  name : String
  deriving DecidableEq, Repr

/-- `models.Deployment`: the fields read or written by the finalize
handler.  `namespaceName` embeds the Go field `Namespace`. -/
structure Deployment where
  id : Nat
  environmentID : Nat
  namespaceName : String
  subdomain : String
  status : DeploymentStatus
  ghDeploymentID : Int
  pullRequestID : Nat
  commitSHA : String
  prBranchFrom : String
  repoOwner : String
  repoName : String
  deriving DecidableEq, Repr

/-- One entry of `types.FinalizeDeploymentRequest.SuccessfulResources`. -/
structure SuccessfulResource where
  releaseName : String
  releaseType : String
  deriving DecidableEq, Repr

/-- `types.FinalizeDeploymentRequest`. -/
structure FinalizeDeploymentRequest where
  namespaceName : String
  subdomain : String
  successfulResources : List SuccessfulResource
  deriving DecidableEq, Repr

/-- A GitHub workflow run; the handler only consumes `GetHTMLURL()`. -/
structure WorkflowRun where
  htmlURL : String
  deriving DecidableEq, Repr

/-- The two error shapes the finalize handler hands to `HandleAPIError`:
`apierrors.NewErrInternal(err)` and
`apierrors.NewErrPassThroughToClient(err, statusCode)`. -/
inductive APIError where
  | internal (msg : String)
  | passThrough (msg : String) (statusCode : Nat)
  deriving DecidableEq, Repr

instance {ε α : Type} [DecidableEq ε] [DecidableEq α] : DecidableEq (Except ε α) := fun a b =>
  match a, b with
  | .error x, .error y =>
    if h : x = y then isTrue (by simp [h]) else isFalse (by simp [h])
  | .error _, .ok _ => isFalse (by simp)
  | .ok _, .error _ => isFalse (by simp)
  | .ok x, .ok y =>
    if h : x = y then isTrue (by simp [h]) else isFalse (by simp [h])

/-- Oracle record for every external call the finalize handler makes, in
source order: the two repository reads, the deployment-row update, GitHub
client construction, the deployment-status creation, the pull-request
fetch (its result is the PR state string), the workflow-run lookup, and
the comment creation. -/
structure ExternalCalls where
  readEnvironment : Except String Environment
  readDeployment : Except String Deployment
  updateResult : Except String Unit
  getClient : Except String Unit
  createDeploymentStatus : Except String Unit
  pullRequestState : Except String String
  latestWorkflowRun : Except String WorkflowRun
  createComment : Except String Unit
  deriving DecidableEq, Repr

/-- `isGithubPRClosed`: fetches the PR and reports whether its state is
the string "closed"; a fetch error propagates. -/
def isGithubPRClosed (prResult : Except String String) : Except String Bool :=
  match prResult with
  | .error e => .error e
  | .ok st => .ok (st == "closed")

/-- The commit short-link cell of the summary comment:
``[`<sha>`](https://github.com/<owner>/<name>/commit/<sha>)``. -/
def commitShortLink (sha owner name : String) : String :=
  "[`" ++ sha ++ "`](https://github.com/" ++ owner ++ "/" ++ name ++
    "/commit/" ++ sha ++ ")"

/-- The leading part of the PR summary comment built by the handler
(`commentBody` before the successful-resources section), with the format
verbs of the Go `fmt.Sprintf` replaced by concatenation of the same
arguments in the same positions. -/
def commentBase (depl : Deployment) (workflowURL serverURL : String) : String :=
  "## Porter Preview Environments\n" ++
  "✅ All changes deployed successfully\n" ++
  "||Deployment Information|\n" ++
  "|-|-|\n" ++
  "| Latest SHA | " ++ commitShortLink depl.commitSHA depl.repoOwner depl.repoName ++ " |\n" ++
  "| Live URL | " ++ depl.subdomain ++ " |\n" ++
  "| Build Logs | " ++ workflowURL ++ " |\n" ++
  "| Porter Deployments URL | " ++ serverURL ++ "/preview-environments/details/" ++
    depl.namespaceName ++ "?environment_id=" ++ toString depl.environmentID ++ " |"

/-- One line of the successful-resources section: the job-template branch
when the release type equals "job", the application-template branch
otherwise. -/
def resourceLine (serverURL clusterName namespaceName : String) (projectID : Nat)
    (res : SuccessfulResource) : String :=
  if res.releaseType == "job" then
    "- [`" ++ res.releaseName ++ "`](" ++ serverURL ++ "/jobs/" ++ clusterName ++
      "/" ++ namespaceName ++ "/" ++ res.releaseName ++ "?project_id=" ++
      toString projectID ++ ")\n"
  else
    "- [`" ++ res.releaseName ++ "`](" ++ serverURL ++ "/applications/" ++ clusterName ++
      "/" ++ namespaceName ++ "/" ++ res.releaseName ++ "?project_id=" ++
      toString projectID ++ ")\n"

/-- The sentinel written over an empty subdomain before the comment is
composed. -/
def ingressDisabledMarker : String := "*Ingress is disabled for this deployment*"

/-- The workflow file name the finalize handler passes to
`commonutils.GetLatestWorkflowRun`: `fmt.Sprintf("porter_%s_env.yml", env.Name)`. -/
def workflowFileName (environmentName : String) : String :=
  "porter_" ++ environmentName ++ "_env.yml"

/-- Everything the finalize handler does that is observable from outside:
the deployment row it persisted through `UpdateDeployment` (if that call
was reached and succeeded), the deployment status it posted (state and
environment URL), the workflow-run query arguments (repo owner, repo
name, workflow file name, branch), the PR comment it delivered, and the
HTTP-level response. -/
structure FinalizeOutcome where
  written : Option Deployment
  statusPost : Option (String × String)
  workflowQuery : Option (String × String × String × String)
  comment : Option String
  response : Except APIError Deployment
  deriving DecidableEq, Repr

/-- Shallow embedding of `FinalizeDeploymentHandler.ServeHTTP`, from the
point after request decoding.  Each `match` mirrors one `if err != nil`
block of the Go source, in source order; the final `.ok` value embeds
`depl.ToDeploymentType()` as the in-memory deployment record at that
point (field-preserving). -/
def finalize (serverURL : String) (projectID : Nat) (clusterName : String)
    (request : FinalizeDeploymentRequest) (ext : ExternalCalls) : FinalizeOutcome :=
  match ext.readEnvironment with
  | .error e =>
    { written := none, statusPost := none, workflowQuery := none, comment := none,
      response := .error (.internal e) }
  | .ok env =>
    match ext.readDeployment with
    | .error e =>
      { written := none, statusPost := none, workflowQuery := none, comment := none,
        response := .error (.internal e) }
    | .ok depl0 =>
      let depl : Deployment :=
        { depl0 with subdomain := request.subdomain, status := .created }
      match ext.updateResult with
      | .error e =>
        { written := none, statusPost := none, workflowQuery := none, comment := none,
          response := .error (.internal e) }
      | .ok _ =>
        match ext.getClient with
        | .error e =>
          { written := some depl, statusPost := none, workflowQuery := none,
            comment := none, response := .error (.internal e) }
        | .ok _ =>
          let state := "success"
          let envURL := depl.subdomain
          match ext.createDeploymentStatus with
          | .error e =>
            { written := some depl, statusPost := none, workflowQuery := none,
              comment := none, response := .error (.internal e) }
          | .ok _ =>
            match isGithubPRClosed ext.pullRequestState with
            | .error e =>
              { written := some depl, statusPost := some (state, envURL),
                workflowQuery := none, comment := none,
                response := .error (.passThrough
                  ("error fetching details of github PR for deployment ID: " ++
                    toString depl.id ++ ". Error: " ++ e) 409) }
            | .ok prClosed =>
              if prClosed then
                { written := some depl, statusPost := some (state, envURL),
                  workflowQuery := none, comment := none,
                  response := .error (.passThrough "Github PR has been closed" 409) }
              else
                let query := (depl.repoOwner, depl.repoName, workflowFileName env.name,
                  depl.prBranchFrom)
                match ext.latestWorkflowRun with
                | .error e =>
                  { written := some depl, statusPost := some (state, envURL),
                    workflowQuery := some query, comment := none,
                    response := .error (.internal e) }
                | .ok run =>
                  let depl2 : Deployment :=
                    if depl.subdomain == "" then
                      { depl with subdomain := ingressDisabledMarker }
                    else depl
                  let base := commentBase depl2 run.htmlURL serverURL
                  let body :=
                    if request.successfulResources.length > 0 then
                      request.successfulResources.foldl
                        (fun acc res => acc ++
                          resourceLine serverURL clusterName depl2.namespaceName projectID res)
                        (base ++ "\n#### Successfully deployed resources\n")
                    else base
                  match ext.createComment with
                  | .error e =>
                    { written := some depl, statusPost := some (state, envURL),
                      workflowQuery := some query, comment := none,
                      response := .error (.internal e) }
                  | .ok _ =>
                    { written := some depl, statusPost := some (state, envURL),
                      workflowQuery := some query, comment := some body,
                      response := .ok depl2 }

/-- An outcome response is internal-class when it came from
`apierrors.NewErrInternal`. -/
def respIsInternal : Except APIError Deployment → Bool
  | .error (.internal _) => true
  | _ => false

/-- An outcome response is Conflict-class when it is a pass-through error
with HTTP status 409. -/
def respIsConflict : Except APIError Deployment → Bool
  | .error (.passThrough _ code) => code == 409
  | _ => false

/-- An outcome response reports success with a `Created` deployment. -/
def respIsCreatedSuccess : Except APIError Deployment → Bool
  | .ok d => d.status == .created
  | _ => false

/-- The row the handler passes to `UpdateDeployment` before any
notification step: the read row with `subdomain` set from the request
and `status` set to `Created`, all other fields untouched. -/
def finalizedRow (depl0 : Deployment) (sub : String) : Deployment :=
  { depl0 with subdomain := sub, status := .created }

/-- The job-template resource link of the successful-resources section
(the `/jobs/` branch of the Go `fmt.Sprintf`). -/
def jobStyleLink (serverURL clusterName namespaceName : String) (projectID : Nat)
    (releaseName : String) : String :=
  "- [`" ++ releaseName ++ "`](" ++ serverURL ++ "/jobs/" ++ clusterName ++
    "/" ++ namespaceName ++ "/" ++ releaseName ++ "?project_id=" ++
    toString projectID ++ ")\n"

/-- The application-template resource link of the successful-resources
section (the `/applications/` branch of the Go `fmt.Sprintf`). -/
def appStyleLink (serverURL clusterName namespaceName : String) (projectID : Nat)
    (releaseName : String) : String :=
  "- [`" ++ releaseName ++ "`](" ++ serverURL ++ "/applications/" ++ clusterName ++
    "/" ++ namespaceName ++ "/" ++ releaseName ++ "?project_id=" ++
    toString projectID ++ ")\n"

/-- `hay` has `sub` as a contiguous substring. -/
def ContainsSub (hay sub : String) : Prop :=
  ∃ pre post : String, hay = pre ++ (sub ++ post)

/-- Stream identifier computed by `App.HandleGetProvisioningLogs`:
`fmt.Sprintf("%s-%s-%s", kind, projectID, infraID)`. -/
def streamName (kind projectID infraID : String) : String :=
  kind ++ "-" ++ projectID ++ "-" ++ infraID

/-- The workflow-run name pattern as the spec words it:
`"<provider-prefix>_<environment-name>_env"`. -/
def specWorkflowRunNamePattern (providerPfx environmentName : String) : String :=
  providerPfx ++ "_" ++ environmentName ++ "_env"

/-- Errors of the Provisioning Dispatcher's launch contract. -/
inductive LaunchError where
  | conflict
  | internal
  deriving DecidableEq, Repr

/-- State visible to the Provisioning Dispatcher: which
(kind, ownerIdentity, resourceInstanceID) jobs are currently in flight,
and whether the execution substrate rejects new jobs. -/
structure DispatcherState where
  inFlight : List (String × String × String)
  substrateRejects : Bool
  deriving DecidableEq, Repr

/-- Modelled from the spec: the Provisioning Dispatcher's `launch`
operation (`agent.ProvisionECR` in `internal/kubernetes`, whose body is
not part of the source sample; `App.HandleProvisionAWSECRInfra` only
calls it and maps a rejection to an internal error).  Per the spec it
fails with `Conflict` when an identical (kind, ownerIdentity,
resourceInstanceID) job is already in flight, fails with `Internal` when
the execution substrate rejects the job, and otherwise returns the
deterministic stream identifier used by the Event Stream Relay. -/
def launch (st : DispatcherState) (kind ownerIdentity resourceInstanceID : String) :
    Except LaunchError String :=
  if (kind, ownerIdentity, resourceInstanceID) ∈ st.inFlight then
    .error .conflict
  else if st.substrateRejects then
    .error .internal
  else
    .ok (streamName kind ownerIdentity resourceInstanceID)

/-! ## Helper lemmas -/

theorem foldl_append_eq (f : SuccessfulResource → String) :
    ∀ (l : List SuccessfulResource) (init : String),
      List.foldl (fun acc r => acc ++ f r) init l =
        init ++ List.foldl (fun acc r => acc ++ f r) "" l := by
  intro l
  induction l with
  | nil => intro init; exact (String.append_empty init).symm
  | cons r rs ih =>
    intro init
    simp only [List.foldl]
    rw [ih (init ++ f r), ih ("" ++ f r), String.empty_append, String.append_assoc]

theorem jobStyleLink_ne_appStyleLink (s c n : String) (p : Nat) (r : String) :
    jobStyleLink s c n p r ≠ appStyleLink s c n p r := by
  intro h
  have hlen := congrArg String.length h
  have h6 : ("/jobs/" : String).length = 6 := rfl
  have h14 : ("/applications/" : String).length = 14 := rfl
  simp [jobStyleLink, appStyleLink, String.length_append, h6, h14] at hlen

theorem containsSub_appendRight {a s : String} (b : String) (h : ContainsSub a s) :
    ContainsSub (a ++ b) s := by
  obtain ⟨pre, post, hp⟩ := h
  exact ⟨pre, post ++ b, by rw [hp]; simp [String.append_assoc]⟩

theorem containsSub_commentBase_subdomain (depl : Deployment) (url sURL : String) :
    ContainsSub (commentBase depl url sURL) depl.subdomain := by
  refine ⟨"## Porter Preview Environments\n" ++ "✅ All changes deployed successfully\n" ++
      "||Deployment Information|\n" ++ "|-|-|\n" ++ "| Latest SHA | " ++
      commitShortLink depl.commitSHA depl.repoOwner depl.repoName ++ " |\n" ++
      "| Live URL | ",
    " |\n" ++ "| Build Logs | " ++ url ++ " |\n" ++ "| Porter Deployments URL | " ++
      sURL ++ "/preview-environments/details/" ++ depl.namespaceName ++
      "?environment_id=" ++ toString depl.environmentID ++ " |", ?_⟩
  simp [commentBase, String.append_assoc]

theorem containsSub_commentBase_commitLink (depl : Deployment) (url sURL : String) :
    ContainsSub (commentBase depl url sURL)
      (commitShortLink depl.commitSHA depl.repoOwner depl.repoName) := by
  refine ⟨"## Porter Preview Environments\n" ++ "✅ All changes deployed successfully\n" ++
      "||Deployment Information|\n" ++ "|-|-|\n" ++ "| Latest SHA | ",
    " |\n" ++ "| Live URL | " ++ depl.subdomain ++ " |\n" ++ "| Build Logs | " ++ url ++
      " |\n" ++ "| Porter Deployments URL | " ++ sURL ++
      "/preview-environments/details/" ++ depl.namespaceName ++
      "?environment_id=" ++ toString depl.environmentID ++ " |", ?_⟩
  simp [commentBase, String.append_assoc]

/-! ## Concrete fixtures -/

/-- A sample deployment row as read from the backing store, in state
`Creating` with a previously provisioned subdomain. -/
def sampleDepl : Deployment :=
  { id := 7, environmentID := 3, namespaceName := "pr-12",
    subdomain := "old.example.com", status := .creating, ghDeploymentID := 88,
    pullRequestID := 12, commitSHA := "abc123", prBranchFrom := "feature",
    repoOwner := "octo", repoName := "demo" }

/-- A sample enrolled environment. -/
def sampleEnv : Environment :=
  { id := 3, projectID := 1, clusterID := 2, installationID := 9,
    gitRepoOwner := "octo", gitRepoName := "demo", name := "myenv" }

/-- Oracle where every external call succeeds and the PR is open. -/
def extAllOk : ExternalCalls :=
  { readEnvironment := .ok sampleEnv, readDeployment := .ok sampleDepl,
    updateResult := .ok (), getClient := .ok (),
    createDeploymentStatus := .ok (), pullRequestState := .ok "open",
    latestWorkflowRun := .ok ⟨"https://gh.example/run/1"⟩,
    createComment := .ok () }

/-- A sample finalize request with a nonempty subdomain and one job
resource. -/
def sampleReq : FinalizeDeploymentRequest :=
  ⟨"pr-12", "foo.example.com", [⟨"worker", "job"⟩]⟩

/-- A sample finalize request whose subdomain is empty (ingress
disabled). -/
def emptySubReq : FinalizeDeploymentRequest :=
  ⟨"pr-12", "", []⟩

/-- Oracle where the PR is detected closed. -/
def extPRClosed : ExternalCalls :=
  { extAllOk with pullRequestState := .ok "closed" }

/-- Oracle where the PR state query fails with a transport error. -/
def extPRFetchErr : ExternalCalls :=
  { extAllOk with pullRequestState := .error "transport failure" }

/-- Oracle where the Environment read fails (for example, no enrollment
row matches). -/
def extEnvMissing : ExternalCalls :=
  { extAllOk with readEnvironment := .error "record not found" }

/-- The server URL, project ID and cluster name used by the concrete
witnesses. -/
def sampleServerURL : String := "https://porter.example"

def sampleProjectID : Nat := 1

def sampleClusterName : String := "cluster-1"

/-! ## Claim theorems -/

/-- C1 (amended): when the PR is detected closed, finalize returns a
Conflict-class result (HTTP 409 pass-through) and never a success result
with status `Created`, and it delivers no comment; however the
Deployment row has already been fully updated — subdomain set from the
request and status set to `Created` — before the closed-PR check, so the
stored status is not preserved from before the call. -/
theorem finalize_closedPR_conflict_after_update
    (sURL : String) (pid : Nat) (cn : String) (req : FinalizeDeploymentRequest)
    (ext : ExternalCalls) (env : Environment) (depl0 : Deployment)
    (h1 : ext.readEnvironment = .ok env) (h2 : ext.readDeployment = .ok depl0)
    (h3 : ext.updateResult = .ok ()) (h4 : ext.getClient = .ok ())
    (h5 : ext.createDeploymentStatus = .ok ())
    (h6 : ext.pullRequestState = .ok "closed") :
    (finalize sURL pid cn req ext).response =
      .error (.passThrough "Github PR has been closed" 409) ∧
    (finalize sURL pid cn req ext).written =
      some { depl0 with subdomain := req.subdomain, status := .created } ∧
    (finalize sURL pid cn req ext).comment = none ∧
    respIsCreatedSuccess (finalize sURL pid cn req ext).response = false := by
  simp [finalize, isGithubPRClosed, respIsCreatedSuccess, h1, h2, h3, h4, h5, h6]

/-- C1 witness: a concrete closed-PR run exhibiting the conflict
response and the already-persisted update. -/
theorem finalize_closedPR_conflict_after_update_witness :
    (finalize sampleServerURL sampleProjectID sampleClusterName sampleReq extPRClosed).response =
      .error (.passThrough "Github PR has been closed" 409) ∧
    (finalize sampleServerURL sampleProjectID sampleClusterName sampleReq extPRClosed).written =
      some { sampleDepl with subdomain := sampleReq.subdomain, status := .created } ∧
    (finalize sampleServerURL sampleProjectID sampleClusterName sampleReq extPRClosed).comment =
      none ∧
    respIsCreatedSuccess
      (finalize sampleServerURL sampleProjectID sampleClusterName sampleReq extPRClosed).response =
      false :=
  finalize_closedPR_conflict_after_update sampleServerURL sampleProjectID sampleClusterName
    sampleReq extPRClosed sampleEnv sampleDepl rfl rfl rfl rfl rfl rfl

/-- C1 counterexample: the deployment was read in status `Creating` and
the PR was detected closed, yet the persisted row carries status
`Created` — the stored status is not left unchanged and the row update
is persisted. -/
theorem finalize_closedPR_status_not_preserved :
    extPRClosed.readDeployment = .ok sampleDepl ∧
    sampleDepl.status = .creating ∧
    extPRClosed.pullRequestState = .ok "closed" ∧
    ((finalize sampleServerURL sampleProjectID sampleClusterName sampleReq
        extPRClosed).written.map Deployment.status) = some .created ∧
    DeploymentStatus.created ≠ DeploymentStatus.creating :=
  ⟨rfl, rfl, rfl, rfl, by decide⟩

/-- C2 (amended): with an empty request subdomain, the Deployment view
returned by finalize and the generated PR comment carry the explicit
"ingress disabled" marker; however the row persisted through
`UpdateDeployment` and the environment URL posted to the deployment
status keep the empty subdomain, because the marker is substituted only
after the row update and the status post. -/
theorem finalize_emptySubdomain_marker_rendering
    (sURL : String) (pid : Nat) (cn : String) (req : FinalizeDeploymentRequest)
    (ext : ExternalCalls) (env : Environment) (depl0 : Deployment) (run : WorkflowRun)
    (h1 : ext.readEnvironment = .ok env) (h2 : ext.readDeployment = .ok depl0)
    (h3 : ext.updateResult = .ok ()) (h4 : ext.getClient = .ok ())
    (h5 : ext.createDeploymentStatus = .ok ())
    (h6 : ext.pullRequestState = .ok "open")
    (h7 : ext.latestWorkflowRun = .ok run) (h8 : ext.createComment = .ok ())
    (hsub : req.subdomain = "") :
    (finalize sURL pid cn req ext).response =
      .ok { depl0 with subdomain := ingressDisabledMarker, status := .created } ∧
    (∃ c, (finalize sURL pid cn req ext).comment = some c ∧
      ContainsSub c ingressDisabledMarker) ∧
    (finalize sURL pid cn req ext).written =
      some { depl0 with subdomain := "", status := .created } ∧
    (finalize sURL pid cn req ext).statusPost = some ("success", "") := by
  refine ⟨?_, ?_, ?_, ?_⟩
  · simp [finalize, isGithubPRClosed, ingressDisabledMarker, h1, h2, h3, h4, h5, h6, h7, h8, hsub]
  · rcases hres : req.successfulResources with _ | ⟨r, rs⟩
    · refine ⟨commentBase { depl0 with subdomain := ingressDisabledMarker, status := .created }
          run.htmlURL sURL, ?_, ?_⟩
      · simp [finalize, isGithubPRClosed, ingressDisabledMarker, h1, h2, h3, h4, h5, h6, h7, h8,
          hsub, hres]
      · have := containsSub_commentBase_subdomain
          { depl0 with subdomain := ingressDisabledMarker, status := .created } run.htmlURL sURL
        simpa using this
    · refine ⟨List.foldl
          (fun acc res => acc ++ resourceLine sURL cn depl0.namespaceName pid res)
          (commentBase { depl0 with subdomain := ingressDisabledMarker, status := .created }
              run.htmlURL sURL ++ "\n#### Successfully deployed resources\n")
          (r :: rs), ?_, ?_⟩
      · simp [finalize, isGithubPRClosed, ingressDisabledMarker, h1, h2, h3, h4, h5, h6, h7, h8,
          hsub, hres]
      · rw [foldl_append_eq (resourceLine sURL cn depl0.namespaceName pid)]
        apply containsSub_appendRight
        apply containsSub_appendRight
        have := containsSub_commentBase_subdomain
          { depl0 with subdomain := ingressDisabledMarker, status := .created } run.htmlURL sURL
        simpa using this
  · simp [finalize, isGithubPRClosed, h1, h2, h3, h4, h5, h6, h7, h8, hsub]
  · simp [finalize, isGithubPRClosed, h1, h2, h3, h4, h5, h6, h7, h8, hsub]

/-- C2 witness: a concrete empty-subdomain run. -/
theorem finalize_emptySubdomain_marker_rendering_witness :
    (finalize sampleServerURL sampleProjectID sampleClusterName emptySubReq extAllOk).response =
      .ok { sampleDepl with subdomain := ingressDisabledMarker, status := .created } ∧
    (∃ c, (finalize sampleServerURL sampleProjectID sampleClusterName emptySubReq
        extAllOk).comment = some c ∧ ContainsSub c ingressDisabledMarker) ∧
    (finalize sampleServerURL sampleProjectID sampleClusterName emptySubReq extAllOk).written =
      some { sampleDepl with subdomain := "", status := .created } ∧
    (finalize sampleServerURL sampleProjectID sampleClusterName emptySubReq
        extAllOk).statusPost = some ("success", "") :=
  finalize_emptySubdomain_marker_rendering sampleServerURL sampleProjectID sampleClusterName
    emptySubReq extAllOk sampleEnv sampleDepl ⟨"https://gh.example/run/1"⟩
    rfl rfl rfl rfl rfl rfl rfl rfl rfl

/-- C2 counterexample: a concrete empty-subdomain run in which two
derived renderings of the subdomain are the empty string, not the
marker: the persisted deployment row and the environment URL posted to
the deployment status. -/
theorem finalize_emptySubdomain_stored_empty :
    emptySubReq.subdomain = "" ∧
    ((finalize sampleServerURL sampleProjectID sampleClusterName emptySubReq
        extAllOk).written.map Deployment.subdomain) = some "" ∧
    (finalize sampleServerURL sampleProjectID sampleClusterName emptySubReq
        extAllOk).statusPost = some ("success", "") ∧
    ("" : String) ≠ ingressDisabledMarker :=
  ⟨rfl, rfl, rfl, by decide⟩

/-- C3 (amended): a transport/API error in the status-check update, the
workflow-run lookup or the comment creation is surfaced as an
internal-class error and no comment is delivered; an error in the
pull-request state query, however, is surfaced as a Conflict-class
pass-through error (HTTP 409), not as an internal error, also with no
comment delivered. -/
theorem finalize_notify_error_classes :
    (∀ (sURL : String) (pid : Nat) (cn : String) (req : FinalizeDeploymentRequest)
        (ext : ExternalCalls) (env : Environment) (depl0 : Deployment) (e : String),
      ext.readEnvironment = .ok env → ext.readDeployment = .ok depl0 →
      ext.updateResult = .ok () → ext.getClient = .ok () →
      ext.createDeploymentStatus = .error e →
      (finalize sURL pid cn req ext).response = .error (.internal e) ∧
      (finalize sURL pid cn req ext).comment = none) ∧
    (∀ (sURL : String) (pid : Nat) (cn : String) (req : FinalizeDeploymentRequest)
        (ext : ExternalCalls) (env : Environment) (depl0 : Deployment) (e : String),
      ext.readEnvironment = .ok env → ext.readDeployment = .ok depl0 →
      ext.updateResult = .ok () → ext.getClient = .ok () →
      ext.createDeploymentStatus = .ok () → ext.pullRequestState = .error e →
      (finalize sURL pid cn req ext).response =
        .error (.passThrough
          ("error fetching details of github PR for deployment ID: " ++
            toString depl0.id ++ ". Error: " ++ e) 409) ∧
      (finalize sURL pid cn req ext).comment = none ∧
      respIsInternal (finalize sURL pid cn req ext).response = false) ∧
    (∀ (sURL : String) (pid : Nat) (cn : String) (req : FinalizeDeploymentRequest)
        (ext : ExternalCalls) (env : Environment) (depl0 : Deployment) (e : String),
      ext.readEnvironment = .ok env → ext.readDeployment = .ok depl0 →
      ext.updateResult = .ok () → ext.getClient = .ok () →
      ext.createDeploymentStatus = .ok () → ext.pullRequestState = .ok "open" →
      ext.latestWorkflowRun = .error e →
      (finalize sURL pid cn req ext).response = .error (.internal e) ∧
      (finalize sURL pid cn req ext).comment = none) ∧
    (∀ (sURL : String) (pid : Nat) (cn : String) (req : FinalizeDeploymentRequest)
        (ext : ExternalCalls) (env : Environment) (depl0 : Deployment)
        (run : WorkflowRun) (e : String),
      ext.readEnvironment = .ok env → ext.readDeployment = .ok depl0 →
      ext.updateResult = .ok () → ext.getClient = .ok () →
      ext.createDeploymentStatus = .ok () → ext.pullRequestState = .ok "open" →
      ext.latestWorkflowRun = .ok run → ext.createComment = .error e →
      (finalize sURL pid cn req ext).response = .error (.internal e) ∧
      (finalize sURL pid cn req ext).comment = none) := by
  refine ⟨?_, ?_, ?_, ?_⟩
  · intro sURL pid cn req ext env depl0 e h1 h2 h3 h4 h5
    simp [finalize, h1, h2, h3, h4, h5]
  · intro sURL pid cn req ext env depl0 e h1 h2 h3 h4 h5 h6
    simp [finalize, isGithubPRClosed, respIsInternal, h1, h2, h3, h4, h5, h6]
  · intro sURL pid cn req ext env depl0 e h1 h2 h3 h4 h5 h6 h7
    simp [finalize, isGithubPRClosed, h1, h2, h3, h4, h5, h6, h7]
  · intro sURL pid cn req ext env depl0 run e h1 h2 h3 h4 h5 h6 h7 h8
    simp [finalize, isGithubPRClosed, h1, h2, h3, h4, h5, h6, h7, h8]

/-- C3 witness: concrete runs for each failing notification step. -/
theorem finalize_notify_error_classes_witness :
    ((finalize sampleServerURL sampleProjectID sampleClusterName sampleReq
        { extAllOk with createDeploymentStatus := .error "status api down" }).response =
      .error (.internal "status api down")) ∧
    ((finalize sampleServerURL sampleProjectID sampleClusterName sampleReq
        extPRFetchErr).response =
      .error (.passThrough
        ("error fetching details of github PR for deployment ID: " ++
          toString sampleDepl.id ++ ". Error: " ++ "transport failure") 409)) ∧
    ((finalize sampleServerURL sampleProjectID sampleClusterName sampleReq
        { extAllOk with latestWorkflowRun := .error "workflow api down" }).response =
      .error (.internal "workflow api down")) ∧
    ((finalize sampleServerURL sampleProjectID sampleClusterName sampleReq
        { extAllOk with createComment := .error "comment api down" }).response =
      .error (.internal "comment api down")) :=
  ⟨(finalize_notify_error_classes.1 sampleServerURL sampleProjectID sampleClusterName
      sampleReq _ sampleEnv sampleDepl "status api down" rfl rfl rfl rfl rfl).1,
    (finalize_notify_error_classes.2.1 sampleServerURL sampleProjectID sampleClusterName
      sampleReq extPRFetchErr sampleEnv sampleDepl "transport failure"
      rfl rfl rfl rfl rfl rfl).1,
    (finalize_notify_error_classes.2.2.1 sampleServerURL sampleProjectID sampleClusterName
      sampleReq _ sampleEnv sampleDepl "workflow api down" rfl rfl rfl rfl rfl rfl rfl).1,
    (finalize_notify_error_classes.2.2.2 sampleServerURL sampleProjectID sampleClusterName
      sampleReq _ sampleEnv sampleDepl ⟨"https://gh.example/run/1"⟩ "comment api down"
      rfl rfl rfl rfl rfl rfl rfl rfl).1⟩

/-- C3 counterexample: a transport error in the pull-request state query
(step ii) is surfaced as a Conflict-class pass-through, not as an
internal-class error, so not every step error is internal-class. -/
theorem finalize_prFetchError_conflict_class :
    respIsInternal
      (finalize sampleServerURL sampleProjectID sampleClusterName sampleReq
        extPRFetchErr).response = false ∧
    respIsConflict
      (finalize sampleServerURL sampleProjectID sampleClusterName sampleReq
        extPRFetchErr).response = true ∧
    (finalize sampleServerURL sampleProjectID sampleClusterName sampleReq
        extPRFetchErr).comment = none :=
  ⟨rfl, rfl, rfl⟩

/-- C4 (amended): when the referenced Environment or Deployment cannot
be resolved, finalize fails with an internal-class error (the handler
wraps both read errors in `apierrors.NewErrInternal`), not with a
NotFound-class client error, and persists nothing. -/
theorem finalize_resolve_error_internal :
    (∀ (sURL : String) (pid : Nat) (cn : String) (req : FinalizeDeploymentRequest)
        (ext : ExternalCalls) (e : String),
      ext.readEnvironment = .error e →
      (finalize sURL pid cn req ext).response = .error (.internal e) ∧
      (finalize sURL pid cn req ext).written = none) ∧
    (∀ (sURL : String) (pid : Nat) (cn : String) (req : FinalizeDeploymentRequest)
        (ext : ExternalCalls) (env : Environment) (e : String),
      ext.readEnvironment = .ok env → ext.readDeployment = .error e →
      (finalize sURL pid cn req ext).response = .error (.internal e) ∧
      (finalize sURL pid cn req ext).written = none) := by
  constructor
  · intro sURL pid cn req ext e h
    simp [finalize, h]
  · intro sURL pid cn req ext env e h1 h2
    simp [finalize, h1, h2]

/-- C4 witness: concrete unresolved-Environment and unresolved-Deployment
runs. -/
theorem finalize_resolve_error_internal_witness :
    ((finalize sampleServerURL sampleProjectID sampleClusterName sampleReq
        extEnvMissing).response = .error (.internal "record not found")) ∧
    ((finalize sampleServerURL sampleProjectID sampleClusterName sampleReq
        { extAllOk with readDeployment := .error "record not found" }).response =
      .error (.internal "record not found")) :=
  ⟨(finalize_resolve_error_internal.1 sampleServerURL sampleProjectID sampleClusterName
      sampleReq extEnvMissing "record not found" rfl).1,
    (finalize_resolve_error_internal.2 sampleServerURL sampleProjectID sampleClusterName
      sampleReq _ sampleEnv "record not found" rfl rfl).1⟩

/-- C4 counterexample: an unresolved Environment yields an internal-class
error, contradicting the claim that the failure is a NotFound-class
client error and not an internal error. -/
theorem finalize_missing_env_internal_not_notFound :
    respIsInternal
      (finalize sampleServerURL sampleProjectID sampleClusterName sampleReq
        extEnvMissing).response = true ∧
    (finalize sampleServerURL sampleProjectID sampleClusterName sampleReq
        extEnvMissing).response = .error (.internal "record not found") :=
  ⟨rfl, rfl⟩

/-- C5: with commit SHA `abc123`, live URL `foo.example.com` and
successfulResources `[(worker, job)]`, the generated comment contains
the commit short-link and the live URL, and its resource section is
exactly one job-style link (the job and application link templates being
distinct texts). -/
theorem finalize_comment_composition
    (sURL : String) (pid : Nat) (cn : String) (req : FinalizeDeploymentRequest)
    (ext : ExternalCalls) (env : Environment) (depl0 : Deployment) (run : WorkflowRun)
    (h1 : ext.readEnvironment = .ok env) (h2 : ext.readDeployment = .ok depl0)
    (h3 : ext.updateResult = .ok ()) (h4 : ext.getClient = .ok ())
    (h5 : ext.createDeploymentStatus = .ok ())
    (h6 : ext.pullRequestState = .ok "open")
    (h7 : ext.latestWorkflowRun = .ok run) (h8 : ext.createComment = .ok ())
    (hsha : depl0.commitSHA = "abc123")
    (hsub : req.subdomain = "foo.example.com")
    (hres : req.successfulResources = [⟨"worker", "job"⟩]) :
    ∃ c, (finalize sURL pid cn req ext).comment = some c ∧
      c = commentBase { depl0 with subdomain := "foo.example.com", status := .created }
            run.htmlURL sURL ++ "\n#### Successfully deployed resources\n" ++
          jobStyleLink sURL cn depl0.namespaceName pid "worker" ∧
      ContainsSub c (commitShortLink "abc123" depl0.repoOwner depl0.repoName) ∧
      ContainsSub c "foo.example.com" ∧
      jobStyleLink sURL cn depl0.namespaceName pid "worker" ≠
        appStyleLink sURL cn depl0.namespaceName pid "worker" := by
  have hcom : (finalize sURL pid cn req ext).comment =
      some (commentBase { depl0 with subdomain := "foo.example.com", status := .created }
            run.htmlURL sURL ++ "\n#### Successfully deployed resources\n" ++
          jobStyleLink sURL cn depl0.namespaceName pid "worker") := by
    have hline : resourceLine sURL cn depl0.namespaceName pid ⟨"worker", "job"⟩ =
        jobStyleLink sURL cn depl0.namespaceName pid "worker" := by
      simp [resourceLine, jobStyleLink]
    simp [finalize, isGithubPRClosed, h1, h2, h3, h4, h5, h6, h7, h8, hsub, hres, hline]
  refine ⟨_, hcom, rfl, ?_, ?_,
    jobStyleLink_ne_appStyleLink sURL cn depl0.namespaceName pid "worker"⟩
  · apply containsSub_appendRight
    apply containsSub_appendRight
    have := containsSub_commentBase_commitLink
      { depl0 with subdomain := "foo.example.com", status := .created } run.htmlURL sURL
    simpa [hsha] using this
  · apply containsSub_appendRight
    apply containsSub_appendRight
    have := containsSub_commentBase_subdomain
      { depl0 with subdomain := "foo.example.com", status := .created } run.htmlURL sURL
    simpa using this

/-- C5 witness: the concrete run with commit `abc123`, live URL
`foo.example.com` and one job resource named `worker`. -/
theorem finalize_comment_composition_witness :
    ∃ c, (finalize sampleServerURL sampleProjectID sampleClusterName sampleReq
        extAllOk).comment = some c ∧
      c = commentBase { sampleDepl with subdomain := "foo.example.com", status := .created }
            "https://gh.example/run/1" sampleServerURL ++
          "\n#### Successfully deployed resources\n" ++
          jobStyleLink sampleServerURL sampleClusterName sampleDepl.namespaceName
            sampleProjectID "worker" ∧
      ContainsSub c (commitShortLink "abc123" sampleDepl.repoOwner sampleDepl.repoName) ∧
      ContainsSub c "foo.example.com" ∧
      jobStyleLink sampleServerURL sampleClusterName sampleDepl.namespaceName
          sampleProjectID "worker" ≠
        appStyleLink sampleServerURL sampleClusterName sampleDepl.namespaceName
          sampleProjectID "worker" :=
  finalize_comment_composition sampleServerURL sampleProjectID sampleClusterName sampleReq
    extAllOk sampleEnv sampleDepl ⟨"https://gh.example/run/1"⟩
    rfl rfl rfl rfl rfl rfl rfl rfl rfl rfl rfl

/-- C8 (amended): once the PR-open check passes, the workflow lookup is
queried with the Deployment's repo owner and name, the file name
`porter_<environment-name>_env.yml` — the spec's
`<provider-prefix>_<environment-name>_env` pattern with provider prefix
`porter` plus a `.yml` extension — and the Deployment's source branch. -/
theorem finalize_workflow_query_fileName
    (sURL : String) (pid : Nat) (cn : String) (req : FinalizeDeploymentRequest)
    (ext : ExternalCalls) (env : Environment) (depl0 : Deployment)
    (h1 : ext.readEnvironment = .ok env) (h2 : ext.readDeployment = .ok depl0)
    (h3 : ext.updateResult = .ok ()) (h4 : ext.getClient = .ok ())
    (h5 : ext.createDeploymentStatus = .ok ())
    (h6 : ext.pullRequestState = .ok "open") :
    (finalize sURL pid cn req ext).workflowQuery =
      some (depl0.repoOwner, depl0.repoName, workflowFileName env.name,
        depl0.prBranchFrom) ∧
    workflowFileName env.name = specWorkflowRunNamePattern "porter" env.name ++ ".yml" := by
  constructor
  · cases hwf : ext.latestWorkflowRun <;>
      cases hcc : ext.createComment <;>
      simp [finalize, isGithubPRClosed, h1, h2, h3, h4, h5, h6, hwf, hcc]
  · have ha : ("porter_" : String) = "porter" ++ "_" := rfl
    have hb : ("_env.yml" : String) = "_env" ++ ".yml" := rfl
    rw [workflowFileName, specWorkflowRunNamePattern, ha, hb]
    simp [String.append_assoc]

/-- C8 witness: the concrete all-ok run queries workflow file
`porter_myenv_env.yml` on branch `feature`. -/
theorem finalize_workflow_query_fileName_witness :
    (finalize sampleServerURL sampleProjectID sampleClusterName sampleReq
        extAllOk).workflowQuery =
      some (sampleDepl.repoOwner, sampleDepl.repoName, workflowFileName sampleEnv.name,
        sampleDepl.prBranchFrom) ∧
    workflowFileName sampleEnv.name =
      specWorkflowRunNamePattern "porter" sampleEnv.name ++ ".yml" :=
  finalize_workflow_query_fileName sampleServerURL sampleProjectID sampleClusterName
    sampleReq extAllOk sampleEnv sampleDepl rfl rfl rfl rfl rfl rfl

/-- C8 counterexample: the workflow file name the handler queries carries
a `.yml` extension, so it is not equal to the spec's
`<provider-prefix>_<environment-name>_env` pattern as stated. -/
theorem workflowFileName_ne_spec_pattern :
    (finalize sampleServerURL sampleProjectID sampleClusterName sampleReq
        extAllOk).workflowQuery =
      some ("octo", "demo", "porter_myenv_env.yml", "feature") ∧
    workflowFileName "myenv" ≠ specWorkflowRunNamePattern "porter" "myenv" :=
  ⟨rfl, by decide⟩

/-- C9: whenever the deployment-row update is reached and succeeds, the
row finalize persists is exactly the read row with only `subdomain` and
`status` replaced; every other field — ID, environment ID, namespace,
commit SHA, branch, PR number, repo owner and name, and the GitHub
deployment-status identifier — is unchanged. -/
theorem finalize_frame_only_subdomain_status
    (sURL : String) (pid : Nat) (cn : String) (req : FinalizeDeploymentRequest)
    (ext : ExternalCalls) (env : Environment) (depl0 : Deployment)
    (h1 : ext.readEnvironment = .ok env) (h2 : ext.readDeployment = .ok depl0)
    (h3 : ext.updateResult = .ok ()) :
    (finalize sURL pid cn req ext).written =
      some (finalizedRow depl0 req.subdomain) ∧
    (finalizedRow depl0 req.subdomain).subdomain = req.subdomain ∧
    (finalizedRow depl0 req.subdomain).status = .created ∧
    (finalizedRow depl0 req.subdomain).id = depl0.id ∧
    (finalizedRow depl0 req.subdomain).environmentID = depl0.environmentID ∧
    (finalizedRow depl0 req.subdomain).namespaceName = depl0.namespaceName ∧
    (finalizedRow depl0 req.subdomain).commitSHA = depl0.commitSHA ∧
    (finalizedRow depl0 req.subdomain).prBranchFrom = depl0.prBranchFrom ∧
    (finalizedRow depl0 req.subdomain).pullRequestID = depl0.pullRequestID ∧
    (finalizedRow depl0 req.subdomain).repoOwner = depl0.repoOwner ∧
    (finalizedRow depl0 req.subdomain).repoName = depl0.repoName ∧
    (finalizedRow depl0 req.subdomain).ghDeploymentID = depl0.ghDeploymentID := by
  refine ⟨?_, rfl, rfl, rfl, rfl, rfl, rfl, rfl, rfl, rfl, rfl, rfl⟩
  cases hgc : ext.getClient <;>
    cases hcs : ext.createDeploymentStatus <;>
    cases hpr : ext.pullRequestState <;>
    cases hwf : ext.latestWorkflowRun <;>
    cases hcc : ext.createComment <;>
    simp [finalize, finalizedRow, isGithubPRClosed, h1, h2, h3, hgc, hcs, hpr, hwf, hcc] <;>
    (try split) <;> simp

/-- C9 witness: the concrete all-ok run persists exactly the updated
subdomain and status. -/
theorem finalize_frame_only_subdomain_status_witness :
    (finalize sampleServerURL sampleProjectID sampleClusterName sampleReq extAllOk).written =
      some (finalizedRow sampleDepl sampleReq.subdomain) ∧
    (finalizedRow sampleDepl sampleReq.subdomain).ghDeploymentID = sampleDepl.ghDeploymentID :=
  ⟨(finalize_frame_only_subdomain_status sampleServerURL sampleProjectID sampleClusterName
      sampleReq extAllOk sampleEnv sampleDepl rfl rfl rfl).1,
    (finalize_frame_only_subdomain_status sampleServerURL sampleProjectID sampleClusterName
      sampleReq extAllOk sampleEnv sampleDepl rfl rfl rfl).2.2.2.2.2.2.2.2.2.2.2⟩

/-- C6: the stream identifier used to attach the Event Stream Relay
(`App.HandleGetProvisioningLogs`) is a deterministic function of exactly
(kind, ownerIdentity, resourceInstanceID): equal inputs derive equal
stream identifiers, so an observer can recompute the identifier with no
side channel. -/
theorem streamName_deterministic (k o i k2 o2 i2 : String)
    (hk : k = k2) (ho : o = o2) (hi : i = i2) :
    streamName k o i = streamName k2 o2 i2 := by
  rw [hk, ho, hi]

theorem streamName_deterministic_witness :
    streamName "ecr" "42" "5" = streamName "ecr" "42" "5" ∧
    streamName "ecr" "42" "5" = "ecr-42-5" :=
  ⟨streamName_deterministic "ecr" "42" "5" "ecr" "42" "5" rfl rfl rfl, by decide⟩

/-- C7: launching a provisioning run fails with a Conflict-class error
when an identical (kind, ownerIdentity, resourceInstanceID) job is
already in flight (so at most one run per resource instance is
concurrently in flight), fails with an Internal-class error when the
execution substrate rejects the job, and otherwise returns the
deterministic stream identifier. -/
theorem launch_conflict_and_internal (st : DispatcherState) (k o i : String) :
    ((k, o, i) ∈ st.inFlight → launch st k o i = .error .conflict) ∧
    ((k, o, i) ∉ st.inFlight → st.substrateRejects = true →
      launch st k o i = .error .internal) ∧
    ((k, o, i) ∉ st.inFlight → st.substrateRejects = false →
      launch st k o i = .ok (streamName k o i)) := by
  refine ⟨fun hm => ?_, fun hm hr => ?_, fun hm hr => ?_⟩ <;>
    simp [launch, *]

theorem launch_conflict_and_internal_witness :
    launch ⟨[("registry", "1", "5")], false⟩ "registry" "1" "5" = .error .conflict ∧
    launch ⟨[], true⟩ "registry" "1" "5" = .error .internal ∧
    launch ⟨[], false⟩ "registry" "1" "5" = .ok (streamName "registry" "1" "5") :=
  ⟨(launch_conflict_and_internal ⟨[("registry", "1", "5")], false⟩ "registry" "1" "5").1
      (by decide),
    (launch_conflict_and_internal ⟨[], true⟩ "registry" "1" "5").2.1 (by decide) rfl,
    (launch_conflict_and_internal ⟨[], false⟩ "registry" "1" "5").2.2 (by decide) rfl⟩

/-- C10: the choice between the job-style and the application-style
resource link is decided by exact string equality of the release kind
with "job"; any other value, including "Job", "cronjob" and the empty
string, renders the application-style link, and the two link templates
are never the same text. -/
theorem resourceLine_kind_dispatch (s c n : String) (p : Nat) (res : SuccessfulResource) :
    (res.releaseType = "job" →
      resourceLine s c n p res = jobStyleLink s c n p res.releaseName) ∧
    (res.releaseType ≠ "job" →
      resourceLine s c n p res = appStyleLink s c n p res.releaseName) ∧
    resourceLine s c n p ⟨"w", "Job"⟩ = appStyleLink s c n p "w" ∧
    resourceLine s c n p ⟨"w", "cronjob"⟩ = appStyleLink s c n p "w" ∧
    resourceLine s c n p ⟨"w", ""⟩ = appStyleLink s c n p "w" ∧
    jobStyleLink s c n p "w" ≠ appStyleLink s c n p "w" := by
  refine ⟨fun hj => ?_, fun hn => ?_, ?_, ?_, ?_, jobStyleLink_ne_appStyleLink s c n p "w"⟩ <;>
    simp [resourceLine, jobStyleLink, appStyleLink, *]

theorem resourceLine_kind_dispatch_witness :
    resourceLine "https://s" "c1" "ns" 4 ⟨"w", "job"⟩ = jobStyleLink "https://s" "c1" "ns" 4 "w" ∧
    resourceLine "https://s" "c1" "ns" 4 ⟨"w", "cronjob"⟩ = appStyleLink "https://s" "c1" "ns" 4 "w" :=
  ⟨(resourceLine_kind_dispatch "https://s" "c1" "ns" 4 ⟨"w", "job"⟩).1 rfl,
    (resourceLine_kind_dispatch "https://s" "c1" "ns" 4 ⟨"w", "cronjob"⟩).2.1 (by decide)⟩

end Porter
